import Mathlib

/-!
Verification of the batybot credential lifecycle manager.

The Go sources are shallowly embedded here:
* time instants and durations are `Int` nanoseconds (Go `time.Time` /
  `time.Duration` are nanosecond-precision); `time.Now()` becomes an explicit
  `now : Int` parameter;
* `UserTokens`, `TokenStore`, `TokenType` mirror the structs of the token
  store (config source, two-identity version);
* the mutex-guarded getter/setter become pure functions on `TokenStore`;
  the durable flush of the setter is tracked by an explicit pair of the
  in-memory store and the durable (flushed) store;
* the renewal loop (`tokenRefreshWatch` with `tokenDelay`, `getRefreshTime`,
  `delay`, `tokenRefresh`) becomes a fuel-bounded interpreter producing a log
  of one record per loop iteration; cancellation and the remote refresh
  outcome are oracle inputs, one per iteration.
-/

namespace Batybot

/-- Ten minutes in nanoseconds (`10 * time.Minute`). -/
def tenMinutes : Int := 600000000000

/-- Thirty seconds in nanoseconds (`30 * time.Second`). -/
def thirtySeconds : Int := 30000000000

/-- Five minutes in nanoseconds (`5 * time.Minute`). -/
def fiveMinutes : Int := 300000000000

/-- Mirror of Go `type UserTokens struct` from the token store source:
access token, refresh token, expiry instant, user id, username. -/
structure UserTokens where
  accessToken : String
  refreshToken : String
  expiresAt : Int
  userID : String
  username : String
  deriving Repr, DecidableEq

/-- Mirror of Go `func (u UserTokens) IsExpired() bool`:
`time.Now().After(u.ExpiresAt.Add(-10 * time.Minute))`, i.e. the token is
considered expired iff `now` is strictly after `expiresAt - 10min`. -/
def UserTokens.IsExpired (now : Int) (u : UserTokens) : Bool :=
  decide (u.expiresAt - tenMinutes < now)

/-- Mirror of Go `func (u UserTokens) isValid() bool`:
`u.AccessToken != "" && u.RefreshToken != "" && !u.IsExpired()`. -/
def UserTokens.isValid (now : Int) (u : UserTokens) : Bool :=
  u.accessToken != "" && u.refreshToken != "" && !(u.IsExpired now)

/-- Mirror of Go `type TokenType int` with constants `BotTokenType` and
`BroadcasterTokenType`. -/
inductive TokenType where
  | BotTokenType
  | BroadcasterTokenType
  deriving Repr, DecidableEq

/-- Mirror of the exported (JSON-serialized) state of Go
`type TokenStore struct`: one `UserTokens` record per identity
(`bot_tokens`, `broadcaster_tokens`); the mutex guards but does not alter
the data and is not modelled. -/
structure TokenStore where
  botTokens : UserTokens
  broadcasterTokens : UserTokens
  deriving Repr, DecidableEq

/-- Mirror of Go `func (cm *ConfigManager) GetTokens(tokenType TokenType)
UserTokens`: under the read lock, return the record selected by the token
type (a value copy). -/
def GetTokens (ts : TokenStore) (tokenType : TokenType) : UserTokens :=
  match tokenType with
  | .BotTokenType => ts.botTokens
  | .BroadcasterTokenType => ts.broadcasterTokens

/-- The in-memory effect of Go `func (cm *ConfigManager) SetTokens(...)`:
under the write lock, the five fields of the record selected by the token
type are overwritten with the arguments. -/
def SetTokens (ts : TokenStore) (tokenType : TokenType)
    (accessToken refreshToken : String) (expiresAt : Int)
    (userID username : String) : TokenStore :=
  match tokenType with
  | .BotTokenType =>
      { ts with botTokens :=
          { accessToken := accessToken, refreshToken := refreshToken,
            expiresAt := expiresAt, userID := userID, username := username } }
  | .BroadcasterTokenType =>
      { ts with broadcasterTokens :=
          { accessToken := accessToken, refreshToken := refreshToken,
            expiresAt := expiresAt, userID := userID, username := username } }

/-- A concrete record sitting exactly at the 10-minute boundary when
`now = 0`: both tokens non-empty and `expiresAt - 10min = now`. -/
def boundaryTokens : UserTokens :=
  { accessToken := "a", refreshToken := "r", expiresAt := tenMinutes,
    userID := "id", username := "name" }

/-- The pair of the in-memory token store and the content last flushed to
the durable token file (`tokens.json`); the file content is identified with
the store value it serializes. -/
structure SyncState where
  mem : TokenStore
  durable : TokenStore
  deriving Repr, DecidableEq

/-- The two state-changing steps of Go `ConfigManager.SetTokens`, in source
order: first the five field assignments through the pointer into the store
(the in-memory commit), then `cm.tokens.saveToFile("tokens.json")` (the
durable flush). -/
inductive SetTokensStep where
  | writeMem
  | flush
  deriving Repr, DecidableEq

/-- The body of Go `ConfigManager.SetTokens` as a straight-line program over
`SetTokensStep`, in the order the source executes them: the field
assignments come first, `saveToFile` second. -/
def setTokensProgram : List SetTokensStep := [.writeMem, .flush]

/-- Effect of one `SetTokensStep` on the memory/durable pair. `flushOk`
tells whether `saveToFile` succeeds; on failure the error is only logged
(`log.Warnf`) and neither component changes. -/
def execSetTokensStep (tokenType : TokenType)
    (accessToken refreshToken : String) (expiresAt : Int)
    (userID username : String) (flushOk : Bool)
    (s : SyncState) : SetTokensStep → SyncState
  | .writeMem =>
      { s with
        mem :=
          (SetTokens s.mem tokenType accessToken refreshToken expiresAt
            userID username) }
  | .flush => if flushOk then { s with durable := s.mem } else s

/-- All intermediate memory/durable states of one `SetTokens` call, from the
state at entry to the state at return, one per executed step. -/
def setTokensStates (s₀ : SyncState) (tokenType : TokenType)
    (accessToken refreshToken : String) (expiresAt : Int)
    (userID username : String) (flushOk : Bool) : List SyncState :=
  List.scanl
    (execSetTokensStep tokenType accessToken refreshToken expiresAt userID
      username flushOk)
    s₀ setTokensProgram

/-- The memory/durable state at return from one `SetTokens` call. -/
def runSetTokens (s₀ : SyncState) (tokenType : TokenType)
    (accessToken refreshToken : String) (expiresAt : Int)
    (userID username : String) (flushOk : Bool) : SyncState :=
  List.foldl
    (execSetTokensStep tokenType accessToken refreshToken expiresAt userID
      username flushOk)
    s₀ setTokensProgram

/-- A concrete pre-state for the setter: memory and durable file agree on
old bot credentials. -/
def c2Init : SyncState :=
  { mem :=
      { botTokens :=
          { accessToken := "oldA", refreshToken := "oldR", expiresAt := 1,
            userID := "u1", username := "bot" },
        broadcasterTokens :=
          { accessToken := "bA", refreshToken := "bR", expiresAt := 2,
            userID := "u2", username := "caster" } },
    durable :=
      { botTokens :=
          { accessToken := "oldA", refreshToken := "oldR", expiresAt := 1,
            userID := "u1", username := "bot" },
        broadcasterTokens :=
          { accessToken := "bA", refreshToken := "bR", expiresAt := 2,
            userID := "u2", username := "caster" } } }

/-- Mirror of Go `func getRefreshTime(token UserTokens) time.Time`: if the
token is already considered expired, return `time.Now()`, else return
`token.ExpiresAt.Add(-10 * time.Minute)`. -/
def getRefreshTime (now : Int) (token : UserTokens) : Int :=
  if token.IsExpired now then now else token.expiresAt - tenMinutes

/-- Oracle inputs of one iteration of `tokenRefreshWatch`: whether the
shared context is observed cancelled at the top-of-loop `select`, whether
cancellation arrives during the `tokenDelay` sleep, the outcome of the
remote `refreshTokens` call (`none` = error; `some` carries the new access
token, refresh token and parsed expiry instant), and whether cancellation
arrives during the 30-second back-off `delay`. -/
structure IterEnv where
  cancelAtTop : Bool
  cancelDuringSleep : Bool
  refreshResult : Option (String × String × Int)
  cancelDuringBackoff : Bool
  deriving Repr, DecidableEq

/-- Observable record of one iteration of `tokenRefreshWatch`: the time and
store at entry, which suspension point (if any) observed cancellation,
whether `refreshTokens` was invoked and at what instant, whether it failed,
whether `SetTokens` was invoked, whether the loop returned, and the time and
store when the iteration ended. `refreshTime` is meaningful only when
`refreshCalled` is true (otherwise it carries the entry time). -/
structure IterLog where
  startTime : Int
  storeBefore : TokenStore
  topCancelled : Bool
  sleepCancelled : Bool
  refreshCalled : Bool
  refreshTime : Int
  refreshFailed : Bool
  backoffCancelled : Bool
  setCalled : Bool
  stopped : Bool
  endTime : Int
  storeAfter : TokenStore
  deriving Repr, DecidableEq

/-- One iteration of the body of Go `tokenRefreshWatch`, in source order:
the top-of-loop `select` on `ctx.Done()`; then `tokenDelay` (read the
current record, compute the wake instant with `getRefreshTime`, and `delay`
until it — cancellation during this sleep returns `refreshControlStop`,
otherwise time advances to the wake instant); then `tokenRefresh` (read the
current record, call `refreshTokens` — on error, `delay` 30 seconds and
continue or stop on cancellation, with no `SetTokens`; on success,
`SetTokens` with the new tokens and the old record's `UserID`/`Username`). -/
def watchIter (now : Int) (store : TokenStore) (tokenType : TokenType)
    (env : IterEnv) : IterLog :=
  if env.cancelAtTop then
    { startTime := now, storeBefore := store, topCancelled := true,
      sleepCancelled := false, refreshCalled := false, refreshTime := now,
      refreshFailed := false, backoffCancelled := false, setCalled := false,
      stopped := true, endTime := now, storeAfter := store }
  else
    let token := GetTokens store tokenType
    let wake := getRefreshTime now token
    if env.cancelDuringSleep then
      { startTime := now, storeBefore := store, topCancelled := false,
        sleepCancelled := true, refreshCalled := false, refreshTime := now,
        refreshFailed := false, backoffCancelled := false, setCalled := false,
        stopped := true, endTime := now, storeAfter := store }
    else
      let wakeTime := max now wake
      match env.refreshResult with
      | none =>
        if env.cancelDuringBackoff then
          { startTime := now, storeBefore := store, topCancelled := false,
            sleepCancelled := false, refreshCalled := true,
            refreshTime := wakeTime, refreshFailed := true,
            backoffCancelled := true, setCalled := false, stopped := true,
            endTime := wakeTime, storeAfter := store }
        else
          { startTime := now, storeBefore := store, topCancelled := false,
            sleepCancelled := false, refreshCalled := true,
            refreshTime := wakeTime, refreshFailed := true,
            backoffCancelled := false, setCalled := false, stopped := false,
            endTime := wakeTime + thirtySeconds, storeAfter := store }
      | some (accessToken, refreshToken, expiresAt) =>
          { startTime := now, storeBefore := store, topCancelled := false,
            sleepCancelled := false, refreshCalled := true,
            refreshTime := wakeTime, refreshFailed := false,
            backoffCancelled := false, setCalled := true, stopped := false,
            endTime := wakeTime,
            storeAfter :=
              (SetTokens store tokenType accessToken refreshToken expiresAt
                token.userID token.username) }

/-- The renewal loop `tokenRefreshWatch` unrolled over a finite list of
per-iteration oracles: stop as soon as an iteration returns, otherwise
continue from its end time and resulting store. The result is the log of
all executed iterations, in order. -/
def tokenRefreshWatchRun : List IterEnv → Int → TokenStore → TokenType →
    List IterLog
  | [], _, _, _ => []
  | env :: rest, now, store, tokenType =>
    let li := watchIter now store tokenType env
    if li.stopped then [li]
    else li :: tokenRefreshWatchRun rest li.endTime li.storeAfter tokenType

/-- A concrete record expiring five minutes from `now = 0`. -/
def fiveMinTokens : UserTokens :=
  { accessToken := "a", refreshToken := "r", expiresAt := fiveMinutes,
    userID := "id", username := "name" }

/-- A concrete store whose bot record sits at the renewal-window boundary at
time `0`. -/
def wStore : TokenStore :=
  { botTokens := boundaryTokens,
    broadcasterTokens :=
      { accessToken := "bA", refreshToken := "bR", expiresAt := 0,
        userID := "u2", username := "caster" } }

/-- Oracle for an iteration whose refresh call fails, with no cancellation. -/
def wEnvFail : IterEnv :=
  { cancelAtTop := false, cancelDuringSleep := false, refreshResult := none,
    cancelDuringBackoff := false }

/-- Oracle for an iteration whose refresh call succeeds. -/
def wEnvOk : IterEnv :=
  { cancelAtTop := false, cancelDuringSleep := false,
    refreshResult := some ("a2", "r2", 7200000000000),
    cancelDuringBackoff := false }

/-- Oracle for an iteration cancelled during its sleep. -/
def wEnvSleepCancel : IterEnv :=
  { cancelAtTop := false, cancelDuringSleep := true, refreshResult := none,
    cancelDuringBackoff := false }

/-- The log of the concrete failing iteration started at time `0`. -/
def w5Log0 : IterLog := watchIter 0 wStore .BotTokenType wEnvFail

/-- The log of the concrete succeeding iteration started right after the
30-second back-off. -/
def w5Log1 : IterLog := watchIter thirtySeconds wStore .BotTokenType wEnvOk

/-- The log of the concrete iteration cancelled during its sleep. -/
def w6Log : IterLog := watchIter 0 wStore .BotTokenType wEnvSleepCancel

/-- Nanoseconds per second, for `expiresAt = now + expiresIn * time.Second`. -/
def nsPerSecond : Int := 1000000000

/-- Query parameters of one `/callback` hit: the optional `error` parameter
and the optional `code` parameter. -/
structure CallbackQuery where
  errorParam : Option String
  code : Option String
  deriving Repr, DecidableEq

/-- Result of a successful code exchange at the provider: access token,
refresh token and the provider's `expires_in` seconds. -/
structure ExchangeResult where
  accessToken : String
  refreshToken : String
  expiresInSeconds : Int
  deriving Repr, DecidableEq

/-- The authorized subject's identity as looked up at the provider. -/
structure ProviderIdentity where
  userId : String
  username : String
  deriving Repr, DecidableEq

/-- How an authorization session ends. -/
inductive SessionOutcome where
  | providerError (msg : String)
  | noCode
  | exchangeFailed
  | lookupFailed
  | wrongAccount (expected got : String)
  | authorized
  deriving Repr, DecidableEq

/-- Modelled from the spec: the repository's current authorization session
server — the `/callback` receiver driven by `oauthFlow`, which `main.go`
calls — is not among the provided sources (the provided `auth.go` is an
earlier revision without the identity check), so the callback protocol is
taken from the spec's words: an `error` query parameter records failure with
the provider's error text; an absent `code` records failure; otherwise the
code is exchanged via the provider client; on exchange success the
authorized subject's identity is fetched and its username compared against
the expected account name for the session; a mismatch fails with a
wrong-account error; a match computes `expiresAt = now + expiresIn seconds`
and persists the record into the credential store. The function returns the
session outcome together with the resulting credential store. -/
def handleCallback (q : CallbackQuery)
    (exchangeCode : String → Option ExchangeResult)
    (lookupIdentity : String → Option ProviderIdentity)
    (expectedUsername : String) (now : Int)
    (store : TokenStore) (tokenType : TokenType) :
    SessionOutcome × TokenStore :=
  match q.errorParam with
  | some msg => (.providerError msg, store)
  | none =>
    match q.code with
    | none => (.noCode, store)
    | some c =>
      match exchangeCode c with
      | none => (.exchangeFailed, store)
      | some ex =>
        match lookupIdentity ex.accessToken with
        | none => (.lookupFailed, store)
        | some ident =>
          if ident.username ≠ expectedUsername then
            (.wrongAccount expectedUsername ident.username, store)
          else
            (.authorized,
             SetTokens store tokenType ex.accessToken ex.refreshToken
               (now + ex.expiresInSeconds * nsPerSecond) ident.userId
               ident.username)

/-- The scenario's callback query: `code=ABC`, no error. -/
def w4Query : CallbackQuery := { errorParam := none, code := some "ABC" }

/-- The scenario's exchange: code `ABC` yields a token. -/
def w4Exchange (c : String) : Option ExchangeResult :=
  if c = "ABC" then
    some { accessToken := "tok", refreshToken := "ref",
           expiresInSeconds := 3600 }
  else none

/-- The scenario's identity lookup: the token belongs to `alice`. -/
def w4Lookup (t : String) : Option ProviderIdentity :=
  if t = "tok" then some { userId := "42", username := "alice" } else none

/-- JSON values as far as the token store's durable format needs them:
strings, RFC3339Nano-formatted timestamps (represented by the instant they
denote, since the Go formatting/parsing pair round-trips the instant at
nanosecond precision), and objects. -/
inductive Json where
  | str : String → Json
  | timeStr : Int → Json
  | obj : List (String × Json) → Json

/-- The JSON object `json.MarshalIndent` produces for one `UserTokens`
record, keyed by the struct's json tags. -/
def marshalUserTokens (u : UserTokens) : Json :=
  .obj [("access_token", .str u.accessToken),
        ("refresh_token", .str u.refreshToken),
        ("expires_at", .timeStr u.expiresAt),
        ("user_id", .str u.userID),
        ("username", .str u.username)]

/-- The JSON object `saveToFile`'s `marshalJSON` produces for the whole
token store: one object per identity, keyed by the struct's json tags (the
unexported mutex is not serialized). -/
def marshalTokenStore (ts : TokenStore) : Json :=
  .obj [("bot_tokens", marshalUserTokens ts.botTokens),
        ("broadcaster_tokens", marshalUserTokens ts.broadcasterTokens)]

/-- Field lookup in a JSON object, by key. -/
def jsonField (fields : List (String × Json)) (key : String) : Option Json :=
  match fields with
  | [] => none
  | (k, v) :: rest => if k = key then some v else jsonField rest key

/-- Decode a string field; like `json.Unmarshal` into a fresh struct, an
absent field leaves the zero value. -/
def jsonStr : Option Json → String
  | some (.str s) => s
  | _ => ""

/-- Decode a timestamp field; an absent field leaves the zero time. -/
def jsonTime : Option Json → Int
  | some (.timeStr t) => t
  | _ => 0

/-- The `UserTokens` value `json.Unmarshal` builds from a JSON object,
field by json tag, zero values for anything absent. -/
def unmarshalUserTokens (j : Json) : UserTokens :=
  match j with
  | .obj fields =>
      { accessToken := jsonStr (jsonField fields "access_token"),
        refreshToken := jsonStr (jsonField fields "refresh_token"),
        expiresAt := jsonTime (jsonField fields "expires_at"),
        userID := jsonStr (jsonField fields "user_id"),
        username := jsonStr (jsonField fields "username") }
  | _ =>
      { accessToken := "", refreshToken := "", expiresAt := 0,
        userID := "", username := "" }

/-- The zero `UserTokens` value of a fresh `TokenStore`. -/
def zeroUserTokens : UserTokens :=
  { accessToken := "", refreshToken := "", expiresAt := 0, userID := "",
    username := "" }

/-- The `TokenStore` value `LoadFromFile`'s `unmarshalJSON` builds into a
fresh empty store from a JSON document. -/
def unmarshalTokenStore (j : Json) : TokenStore :=
  match j with
  | .obj fields =>
      { botTokens :=
          match jsonField fields "bot_tokens" with
          | some bj => unmarshalUserTokens bj
          | none => zeroUserTokens,
        broadcasterTokens :=
          match jsonField fields "broadcaster_tokens" with
          | some bj => unmarshalUserTokens bj
          | none => zeroUserTokens }
  | _ => { botTokens := zeroUserTokens, broadcasterTokens := zeroUserTokens }

/-- C2, counterexample: the claim asserts flush-then-swap — that at no point
during a set is the in-memory store already updated while the durable state
is not yet written. On the code the field assignments precede `saveToFile`,
so at the intermediate point after `writeMem` the memory holds the new
record while the durable file still holds the old store: the claimed
invariant fails there even on a run whose flush succeeds. -/
theorem setTokens_not_flush_then_swap :
    (setTokensStates c2Init .BotTokenType "newA" "newR" 9 "u1" "bot"
        true).get? 1 =
      some { mem := SetTokens c2Init.mem .BotTokenType "newA" "newR" 9 "u1"
               "bot",
             durable := c2Init.durable } ∧
      SetTokens c2Init.mem .BotTokenType "newA" "newR" 9 "u1" "bot" ≠
        c2Init.durable := by
  refine ⟨rfl, by decide⟩

/-- C2, amended: the setter is swap-then-flush, not flush-then-swap: the
states traversed by one `SetTokens` call are exactly the entry state, then
the state with memory updated and durable unchanged, then the final state in
which the durable file also holds the new store when the flush succeeded
(and still the old one when it failed). The in-memory commit always precedes
the durable flush. -/
theorem setTokens_swap_then_flush (s₀ : SyncState) (tokenType : TokenType)
    (accessToken refreshToken : String) (expiresAt : Int)
    (userID username : String) (flushOk : Bool) :
    setTokensStates s₀ tokenType accessToken refreshToken expiresAt userID
        username flushOk =
      [s₀,
       { mem := SetTokens s₀.mem tokenType accessToken refreshToken expiresAt
           userID username,
         durable := s₀.durable },
       { mem := SetTokens s₀.mem tokenType accessToken refreshToken expiresAt
           userID username,
         durable :=
           if flushOk then
             SetTokens s₀.mem tokenType accessToken refreshToken expiresAt
               userID username
           else s₀.durable }] := by
  cases flushOk <;>
    simp [setTokensStates, setTokensProgram, List.scanl, execSetTokensStep]

/-- C3: `SetTokens` never fails its caller: the setter is a total function
whose in-memory result does not depend on the flush outcome, and a
`GetTokens` for the same identity after the call returns exactly the new
record — also when the durable flush fails (`flushOk = false`), in which
case the failure is only logged. -/
theorem setTokens_read_your_writes (s₀ : SyncState) (tokenType : TokenType)
    (accessToken refreshToken : String) (expiresAt : Int)
    (userID username : String) (flushOk : Bool) :
    GetTokens (runSetTokens s₀ tokenType accessToken refreshToken expiresAt
        userID username flushOk).mem tokenType =
      { accessToken := accessToken, refreshToken := refreshToken,
        expiresAt := expiresAt, userID := userID, username := username } := by
  cases flushOk <;> cases tokenType <;> rfl

/-- C9: setting one identity's record leaves the other identity's record
untouched, field for field: after a bot-token set the broadcaster record
equals its prior value, and after a broadcaster-token set the bot record
equals its prior value. -/
theorem setTokens_frame (ts : TokenStore)
    (accessToken refreshToken : String) (expiresAt : Int)
    (userID username : String) :
    (SetTokens ts .BotTokenType accessToken refreshToken expiresAt userID
        username).broadcasterTokens = ts.broadcasterTokens ∧
      (SetTokens ts .BroadcasterTokenType accessToken refreshToken expiresAt
        userID username).botTokens = ts.botTokens :=
  ⟨rfl, rfl⟩

theorem watchIter_startTime (now : Int) (store : TokenStore)
    (tokenType : TokenType) (env : IterEnv) :
    (watchIter now store tokenType env).startTime = now := by
  rcases env with ⟨ct, cs, rr, cb⟩
  cases ct <;> cases cs <;> cases cb <;>
    rcases rr with _ | ⟨a, r, e⟩ <;> simp [watchIter]

theorem watchIter_storeBefore (now : Int) (store : TokenStore)
    (tokenType : TokenType) (env : IterEnv) :
    (watchIter now store tokenType env).storeBefore = store := by
  rcases env with ⟨ct, cs, rr, cb⟩
  cases ct <;> cases cs <;> cases cb <;>
    rcases rr with _ | ⟨a, r, e⟩ <;> simp [watchIter]

theorem watchIter_refreshTime_ge (now : Int) (store : TokenStore)
    (tokenType : TokenType) (env : IterEnv) :
    now ≤ (watchIter now store tokenType env).refreshTime := by
  rcases env with ⟨ct, cs, rr, cb⟩
  cases ct <;> cases cs <;> cases cb <;>
    rcases rr with _ | ⟨a, r, e⟩ <;> simp [watchIter]

theorem watchIter_sleepCancelled (now : Int) (store : TokenStore)
    (tokenType : TokenType) (env : IterEnv)
    (h : (watchIter now store tokenType env).sleepCancelled = true) :
    (watchIter now store tokenType env).stopped = true ∧
      (watchIter now store tokenType env).refreshCalled = false := by
  rcases env with ⟨ct, cs, rr, cb⟩
  cases ct <;> cases cs <;> cases cb <;>
    rcases rr with _ | ⟨a, r, e⟩ <;> simp_all [watchIter]

theorem watchIter_failed (now : Int) (store : TokenStore)
    (tokenType : TokenType) (env : IterEnv)
    (hc : (watchIter now store tokenType env).refreshCalled = true)
    (hf : (watchIter now store tokenType env).refreshFailed = true) :
    (watchIter now store tokenType env).setCalled = false ∧
      (watchIter now store tokenType env).storeAfter =
        (watchIter now store tokenType env).storeBefore ∧
      ((watchIter now store tokenType env).stopped = true ∨
        (watchIter now store tokenType env).endTime =
          (watchIter now store tokenType env).refreshTime + thirtySeconds) := by
  rcases env with ⟨ct, cs, rr, cb⟩
  cases ct <;> cases cs <;> cases cb <;>
    rcases rr with _ | ⟨a, r, e⟩ <;> simp_all [watchIter]

theorem sub_tenMinutes_le_wake (now : Int) (token : UserTokens) :
    token.expiresAt - tenMinutes ≤ max now (getRefreshTime now token) := by
  unfold getRefreshTime
  by_cases h : token.IsExpired now = true
  · rw [if_pos h]
    have hlt : token.expiresAt - tenMinutes < now := by
      simpa [UserTokens.IsExpired] using h
    exact le_max_iff.mpr (Or.inl hlt.le)
  · rw [if_neg h]
    exact le_max_right _ _

theorem watchIter_refreshTime_eq (now : Int) (store : TokenStore)
    (tokenType : TokenType) (env : IterEnv)
    (hc : (watchIter now store tokenType env).refreshCalled = true) :
    (watchIter now store tokenType env).refreshTime =
      max now (getRefreshTime now (GetTokens store tokenType)) := by
  rcases env with ⟨ct, cs, rr, cb⟩
  cases ct <;> cases cs <;> cases cb <;>
    rcases rr with _ | ⟨a, r, e⟩ <;> simp_all [watchIter]

theorem watchIter_refresh_window (now : Int) (store : TokenStore)
    (tokenType : TokenType) (env : IterEnv)
    (hc : (watchIter now store tokenType env).refreshCalled = true) :
    (GetTokens (watchIter now store tokenType env).storeBefore
        tokenType).expiresAt - tenMinutes ≤
      (watchIter now store tokenType env).refreshTime := by
  rw [watchIter_storeBefore, watchIter_refreshTime_eq now store tokenType env hc]
  exact sub_tenMinutes_le_wake now (GetTokens store tokenType)

theorem run_get_eq_iter :
    ∀ (envs : List IterEnv) (now : Int) (store : TokenStore)
      (tokenType : TokenType) (i : Nat) (li : IterLog),
      (tokenRefreshWatchRun envs now store tokenType).get? i = some li →
      ∃ n s e, li = watchIter n s tokenType e
  | [], _, _, _, _, _, h => by simp [tokenRefreshWatchRun] at h
  | env :: rest, now, store, tokenType, i, li, h => by
    simp only [tokenRefreshWatchRun] at h
    by_cases hstop : (watchIter now store tokenType env).stopped = true
    · rw [if_pos hstop] at h
      cases i with
      | zero =>
        rw [List.get?_cons_zero] at h
        exact ⟨now, store, env, (Option.some.inj h).symm⟩
      | succ j => simp at h
    · rw [if_neg hstop] at h
      cases i with
      | zero =>
        rw [List.get?_cons_zero] at h
        exact ⟨now, store, env, (Option.some.inj h).symm⟩
      | succ j =>
        rw [List.get?_cons_succ] at h
        exact run_get_eq_iter rest _ _ tokenType j li h

theorem run_stopped_last :
    ∀ (envs : List IterEnv) (now : Int) (store : TokenStore)
      (tokenType : TokenType) (i : Nat) (li : IterLog),
      (tokenRefreshWatchRun envs now store tokenType).get? i = some li →
      li.stopped = true →
      (tokenRefreshWatchRun envs now store tokenType).length = i + 1
  | [], _, _, _, _, _, h, _ => by simp [tokenRefreshWatchRun] at h
  | env :: rest, now, store, tokenType, i, li, h, hs => by
    simp only [tokenRefreshWatchRun] at h ⊢
    by_cases hstop : (watchIter now store tokenType env).stopped = true
    · rw [if_pos hstop] at h ⊢
      cases i with
      | zero => rfl
      | succ j => simp at h
    · rw [if_neg hstop] at h ⊢
      cases i with
      | zero =>
        rw [List.get?_cons_zero] at h
        rw [← Option.some.inj h] at hs
        exact absurd hs hstop
      | succ j =>
        rw [List.get?_cons_succ] at h
        rw [List.length_cons, run_stopped_last rest _ _ tokenType j li h hs]

theorem run_get_zero (envs : List IterEnv) (now : Int) (store : TokenStore)
    (tokenType : TokenType) (lj : IterLog)
    (h : (tokenRefreshWatchRun envs now store tokenType).get? 0 = some lj) :
    lj.startTime = now := by
  cases envs with
  | nil => simp [tokenRefreshWatchRun] at h
  | cons env rest =>
    simp only [tokenRefreshWatchRun] at h
    by_cases hstop : (watchIter now store tokenType env).stopped = true
    · rw [if_pos hstop, List.get?_cons_zero] at h
      rw [← Option.some.inj h, watchIter_startTime]
    · rw [if_neg hstop, List.get?_cons_zero] at h
      rw [← Option.some.inj h, watchIter_startTime]

theorem run_chain :
    ∀ (envs : List IterEnv) (now : Int) (store : TokenStore)
      (tokenType : TokenType) (i : Nat) (li lj : IterLog),
      (tokenRefreshWatchRun envs now store tokenType).get? i = some li →
      (tokenRefreshWatchRun envs now store tokenType).get? (i + 1) = some lj →
      lj.startTime = li.endTime
  | [], _, _, _, _, _, _, h, _ => by simp [tokenRefreshWatchRun] at h
  | env :: rest, now, store, tokenType, i, li, lj, h, h' => by
    simp only [tokenRefreshWatchRun] at h h'
    by_cases hstop : (watchIter now store tokenType env).stopped = true
    · rw [if_pos hstop] at h'
      simp at h'
    · rw [if_neg hstop] at h h'
      cases i with
      | zero =>
        rw [List.get?_cons_zero] at h
        rw [List.get?_cons_succ] at h'
        rw [← Option.some.inj h]
        exact run_get_zero rest _ _ tokenType lj h'
      | succ j =>
        rw [List.get?_cons_succ] at h h'
        exact run_chain rest _ _ tokenType j li lj h h'

/-- C7: the renewal wake time computed by the scheduler equals
`max now (expiresAt - 10min)`: inside or past the 10-minute window it is the
current time (wake immediately, no sleep), otherwise `expiresAt - 10min`;
in particular a record with `expiresAt = now + 5min` wakes at `now`. -/
theorem getRefreshTime_eq_max (now : Int) (token : UserTokens) :
    getRefreshTime now token = max now (token.expiresAt - tenMinutes) ∧
      (token.expiresAt = now + fiveMinutes → getRefreshTime now token = now) := by
  have hmax : getRefreshTime now token = max now (token.expiresAt - tenMinutes) := by
    unfold getRefreshTime
    by_cases h : token.IsExpired now = true
    · rw [if_pos h]
      have hlt : token.expiresAt - tenMinutes < now := by
        simpa [UserTokens.IsExpired] using h
      exact (max_eq_left hlt.le).symm
    · rw [if_neg h]
      have hle : now ≤ token.expiresAt - tenMinutes := by
        have := h
        simp only [UserTokens.IsExpired, decide_eq_true_eq] at this
        omega
      exact (max_eq_right hle).symm
  refine ⟨hmax, fun he => ?_⟩
  rw [hmax, he]
  apply max_eq_left
  simp only [fiveMinutes, tenMinutes]
  omega

/-- C7, witness: at `now = 0` and `expiresAt = now + 5min` the computed wake
time is `now` itself — the scheduler wakes immediately. -/
theorem getRefreshTime_witness : getRefreshTime 0 fiveMinTokens = 0 :=
  (getRefreshTime_eq_max 0 fiveMinTokens).2 (by decide)

/-- C8: in every execution of the renewal loop, every refresh call happens
at or after the stored record's `expiresAt - 10min`: whenever iteration `i`
of a run invokes `refreshTokens`, the instant of the call is at least the
renewal-window start computed from the record the iteration read. -/
theorem refresh_not_before_window (envs : List IterEnv) (now : Int)
    (store : TokenStore) (tokenType : TokenType) (i : Nat) (li : IterLog)
    (hi : (tokenRefreshWatchRun envs now store tokenType).get? i = some li)
    (hc : li.refreshCalled = true) :
    (GetTokens li.storeBefore tokenType).expiresAt - tenMinutes ≤
      li.refreshTime := by
  obtain ⟨n, s, e, rfl⟩ := run_get_eq_iter envs now store tokenType i li hi
  exact watchIter_refresh_window n s tokenType e hc

/-- C6: cancellation observed during the sleep-until-wake step ends the
loop with no refresh call: if iteration `i` of a run observes cancellation
during its `tokenDelay` sleep, that iteration makes no refresh call and is
the last iteration of the run, so the number of refresh invocations after
that point is zero. -/
theorem sleep_cancel_stops (envs : List IterEnv) (now : Int)
    (store : TokenStore) (tokenType : TokenType) (i : Nat) (li : IterLog)
    (hi : (tokenRefreshWatchRun envs now store tokenType).get? i = some li)
    (hs : li.sleepCancelled = true) :
    li.refreshCalled = false ∧
      (tokenRefreshWatchRun envs now store tokenType).length = i + 1 := by
  obtain ⟨n, s, e, hli⟩ := run_get_eq_iter envs now store tokenType i li hi
  obtain ⟨hstop, hnoref⟩ :=
    watchIter_sleepCancelled n s tokenType e (hli ▸ hs)
  exact ⟨hli ▸ hnoref,
    run_stopped_last envs now store tokenType i li hi (hli ▸ hstop)⟩

/-- C5: a failed refresh attempt calls no `SetTokens` and leaves the stored
record (in particular its `expiresAt`) unchanged, and the loop waits the
fixed 30-second back-off — or stops on cancellation during that back-off —
before the next refresh attempt: any refresh in the following iteration
happens no earlier than 30 seconds after the failed one. -/
theorem failed_refresh_backoff (envs : List IterEnv) (now : Int)
    (store : TokenStore) (tokenType : TokenType) (i : Nat) (li : IterLog)
    (hi : (tokenRefreshWatchRun envs now store tokenType).get? i = some li)
    (hc : li.refreshCalled = true) (hf : li.refreshFailed = true) :
    li.setCalled = false ∧ li.storeAfter = li.storeBefore ∧
      (li.stopped = true ∨ li.endTime = li.refreshTime + thirtySeconds) ∧
      ∀ lj : IterLog,
        (tokenRefreshWatchRun envs now store tokenType).get? (i + 1) =
          some lj →
        lj.refreshCalled = true →
        li.refreshTime + thirtySeconds ≤ lj.refreshTime := by
  obtain ⟨n, s, e, hli⟩ := run_get_eq_iter envs now store tokenType i li hi
  obtain ⟨hset, hkeep, hend⟩ :=
    watchIter_failed n s tokenType e (hli ▸ hc) (hli ▸ hf)
  refine ⟨hli ▸ hset, hli ▸ hkeep, hli ▸ hend, ?_⟩
  intro lj hj hjc
  have hnotstop : ¬ li.stopped = true := by
    intro habs
    have hlen := run_stopped_last envs now store tokenType i li hi habs
    have hlt : i + 1 < (tokenRefreshWatchRun envs now store tokenType).length :=
      List.get?_eq_some.mp hj |>.1
    omega
  have hendTime : li.endTime = li.refreshTime + thirtySeconds := by
    rcases hli ▸ hend with habs | hgood
    · exact absurd (hli ▸ habs) hnotstop
    · exact hli ▸ hgood
  have hchain : lj.startTime = li.endTime :=
    run_chain envs now store tokenType i li lj hi hj
  obtain ⟨n', s', e', hlj⟩ :=
    run_get_eq_iter envs now store tokenType (i + 1) lj hj
  have hstart : lj.startTime = n' := hlj ▸ watchIter_startTime n' s' tokenType e'
  have hge : n' ≤ lj.refreshTime := hlj ▸ watchIter_refreshTime_ge n' s' tokenType e'
  omega

/-- C5, witness: on the concrete two-iteration run whose first refresh
fails, the failed iteration calls no `SetTokens`, leaves the store
unchanged, and the next refresh happens 30 seconds later. -/
theorem failed_refresh_backoff_witness :
    w5Log0.setCalled = false ∧ w5Log0.storeAfter = w5Log0.storeBefore ∧
      w5Log0.refreshTime + thirtySeconds ≤ w5Log1.refreshTime := by
  obtain ⟨h1, h2, _, h4⟩ :=
    failed_refresh_backoff [wEnvFail, wEnvOk] 0 wStore .BotTokenType 0 w5Log0
      (by decide) (by decide) (by decide)
  exact ⟨h1, h2, h4 w5Log1 (by decide) (by decide)⟩

/-- C6, witness: on the concrete run cancelled during its first sleep, no
refresh is called and the run has exactly one iteration. -/
theorem sleep_cancel_stops_witness :
    w6Log.refreshCalled = false ∧
      (tokenRefreshWatchRun [wEnvSleepCancel] 0 wStore
          .BotTokenType).length = 0 + 1 :=
  sleep_cancel_stops [wEnvSleepCancel] 0 wStore .BotTokenType 0 w6Log
    (by decide) (by decide)

/-- C8, witness: on the concrete one-iteration run, the refresh call happens
no earlier than the stored record's `expiresAt - 10min`. -/
theorem refresh_window_witness :
    (GetTokens w5Log0.storeBefore .BotTokenType).expiresAt - tenMinutes ≤
      w5Log0.refreshTime :=
  refresh_not_before_window [wEnvFail] 0 wStore .BotTokenType 0 w5Log0
    (by decide) (by decide)

/-- C1, counterexample: the claim asserts that at the boundary
`now = expiresAt - 10min` with both tokens non-empty `isValid` returns
`false`; on the code, `time.Now().After` is strict, so at that exact instant
the record is still valid: `isValid` returns `true` while
`now < expiresAt - 10min` fails. -/
theorem isValid_boundary_counterexample :
    UserTokens.isValid 0 boundaryTokens = true ∧
      ¬ ((0 : Int) < boundaryTokens.expiresAt - tenMinutes) := by
  refine ⟨by decide, by decide⟩

/-- C1, amended: `isValid` returns `true` iff `accessToken` is non-empty,
`refreshToken` is non-empty, and the current time is at or before
`expiresAt - 10min` (i.e. not strictly after); at the boundary where exactly
10 minutes remain, `isValid` returns `true` when both tokens are non-empty. -/
theorem isValid_iff (now : Int) (u : UserTokens) :
    u.isValid now = true ↔
      (u.accessToken ≠ "" ∧ u.refreshToken ≠ "" ∧
        now ≤ u.expiresAt - tenMinutes) := by
  simp [UserTokens.isValid, UserTokens.IsExpired, not_lt, and_assoc]

/-- C4: when the code exchange succeeds but the looked-up authorized
username differs from the expected account name, the session ends with a
wrong-account failure naming the expected and actual usernames, and the
credential store is returned unchanged — no record is written for either
identity. -/
theorem callback_wrong_account (q : CallbackQuery)
    (exchangeCode : String → Option ExchangeResult)
    (lookupIdentity : String → Option ProviderIdentity)
    (expectedUsername : String) (now : Int) (store : TokenStore)
    (tokenType : TokenType) (c : String) (ex : ExchangeResult)
    (ident : ProviderIdentity)
    (hq : q.errorParam = none) (hc : q.code = some c)
    (hex : exchangeCode c = some ex)
    (hid : lookupIdentity ex.accessToken = some ident)
    (hne : ident.username ≠ expectedUsername) :
    handleCallback q exchangeCode lookupIdentity expectedUsername now store
        tokenType =
      (.wrongAccount expectedUsername ident.username, store) := by
  simp [handleCallback, hq, hc, hex, hid, hne]

/-- C4, witness: the scenario — callback with `code=ABC`, exchange succeeds,
looked-up username `alice` but expected `bob` — fails with the wrong-account
outcome and leaves the store unchanged. -/
theorem callback_wrong_account_witness :
    handleCallback w4Query w4Exchange w4Lookup "bob" 0 wStore
        .BotTokenType =
      (.wrongAccount "bob" "alice", wStore) :=
  callback_wrong_account w4Query w4Exchange w4Lookup "bob" 0 wStore
    .BotTokenType "ABC"
    { accessToken := "tok", refreshToken := "ref", expiresInSeconds := 3600 }
    { userId := "42", username := "alice" }
    rfl rfl (by decide) (by decide) (by decide)

/-- C10: token-store persistence round-trips: serializing any store with
`saveToFile`'s marshalling and deserializing the result with
`LoadFromFile`'s unmarshalling into a fresh store reproduces both identity
records — access token, refresh token, expiry, user id and username. -/
theorem marshal_roundtrip (ts : TokenStore) :
    unmarshalTokenStore (marshalTokenStore ts) = ts := by
  cases ts with
  | mk bot broadcaster =>
    cases bot
    cases broadcaster
    rfl

/-- C1 amended, witness: at `now = 0` the boundary record instantiates the
characterisation of `isValid`. -/
theorem isValid_iff_witness :
    (UserTokens.isValid 0 boundaryTokens = true ↔
      (boundaryTokens.accessToken ≠ "" ∧ boundaryTokens.refreshToken ≠ "" ∧
        (0 : Int) ≤ boundaryTokens.expiresAt - tenMinutes)) :=
  isValid_iff 0 boundaryTokens

end Batybot
